import Mathlib

/-!
Verification of the `$templateFactory` service of angular-detour
(`src/samples/2-lazy-components-runtime/js/main.js`).

The service is a pure dispatcher over a configuration object: it selects one
of four template-resolution strategies (inline string/function, URL fetch,
injectable provider, named service) by field presence, in a fixed priority
order, and delegates all effects to the host framework services `$http`,
`$templateCache` and `$injector`.

We embed the JavaScript values the code manipulates as an inductive type
`JSVal`, model the three injected framework services as an abstract
environment `Env`, and let every factory method return its JavaScript result
together with a trace of the framework calls it performed, so that claims of
the form "performs no fetch" or "performs exactly one GET" are statable.
-/

/-- The universe of JavaScript values handled by the template factory.
Functions are represented by an identifier; their behaviour when called with
one argument is supplied by the environment (`Env.apply`).  `promise v`
stands for a settled deferred whose eventual value is `v`. -/
inductive JSVal where
  | undef : JSVal
  | null : JSVal
  | boolean : Bool → JSVal
  | number : Int → JSVal
  | string : String → JSVal
  | func : Nat → JSVal
  | object : List (String × JSVal) → JSVal
  | promise : JSVal → JSVal
deriving Repr

/-- `angular.isDefined(value)`, i.e. `typeof value !== 'undefined'`. -/
def isDefined : JSVal → Bool
  | JSVal.undef => false
  | _ => true

/-- `angular.isFunction(value)`, i.e. `typeof value === 'function'`. -/
def isFunction : JSVal → Bool
  | JSVal.func _ => true
  | _ => false

/-- JavaScript loose equality against `null`: `v == null` holds exactly for
`null` and `undefined`. -/
def looseEqNull : JSVal → Bool
  | JSVal.null => true
  | JSVal.undef => true
  | _ => false

/-- JavaScript truthiness, as used by `locals || { params: params }`. -/
def truthy : JSVal → Bool
  | JSVal.undef => false
  | JSVal.null => false
  | JSVal.boolean b => b
  | JSVal.number n => n != 0
  | JSVal.string s => s != ""
  | JSVal.func _ => true
  | JSVal.object _ => true
  | JSVal.promise _ => true

/-- JavaScript property access `v.k`: on an object, the first binding of the
key (missing keys read as `undefined`); on any non-object, `undefined`.
(The factory only reads properties of configs and of HTTP responses.) -/
def getProp (v : JSVal) (k : String) : JSVal :=
  match v with
  | JSVal.object fields => (fields.lookup k).getD JSVal.undef
  | _ => JSVal.undef

/-- One observable call from the template factory into user code or into the
injected framework services. -/
inductive Event where
  /-- a user-supplied `template`/`templateUrl` function was called with the
  given argument -/
  | callTemplateFn : Nat → JSVal → Event
  /-- `$http.get(url, options)` was issued -/
  | httpGet : JSVal → JSVal → Event
  /-- `$injector.invoke(provider, self, locals)` was issued -/
  | injectorInvoke : JSVal → JSVal → JSVal → Event
  /-- the service with the given name was looked up through `$injector` -/
  | serviceLookup : JSVal → Event
  /-- `service.getTemplate(params, locals)` was called on the looked-up
  service -/
  | getTemplateCall : JSVal → JSVal → JSVal → Event
deriving Repr

/-- Whether an event is a network fetch (`$http.get`). -/
def Event.isHttpGet : Event → Bool
  | Event.httpGet _ _ => true
  | _ => false

/-- The behaviour of everything the factory delegates to: user-supplied
functions, `$http`, `$templateCache` and `$injector`.  The factory itself
holds no state; these are the services injected into its constructor. -/
structure Env where
  /-- calling function `f` with one argument -/
  apply : Nat → JSVal → JSVal
  /-- the response object produced by `$http.get` for a given URL -/
  httpResponse : JSVal → JSVal
  /-- the `$templateCache` service object -/
  templateCache : JSVal
  /-- `$injector.invoke(provider, self, locals)` -/
  invoke : JSVal → JSVal → JSVal → JSVal
  /-- `$injector`'s lookup of a service by name -/
  serviceOf : JSVal → JSVal
  /-- calling `service.getTemplate(params, locals)` -/
  getTemplate : JSVal → JSVal → JSVal → JSVal

namespace TemplateFactory

/-- `fromString(template, params)`:
`angular.isFunction(template) ? template(params) : template`. -/
def fromString (env : Env) (template params : JSVal) : JSVal × List Event :=
  match template with
  | JSVal.func fid => (env.apply fid params, [Event.callTemplateFn fid params])
  | t => (t, [])

/-- The reassignment `if (angular.isFunction(url)) url = url(params);` at the
top of `fromUrl`: the value of `url` after it. -/
def resolvedUrl (env : Env) (url params : JSVal) : JSVal :=
  match url with
  | JSVal.func fid => env.apply fid params
  | u => u

/-- The trace of the same reassignment: the call to the url function, when
there is one. -/
def resolveEvents (url params : JSVal) : List Event :=
  match url with
  | JSVal.func fid => [Event.callTemplateFn fid params]
  | _ => []

/-- `fromUrl(url, params)`: resolve a function-valued url against `params`,
return `null` for a loosely-null url, otherwise
`$http.get(url, { cache: $templateCache }).then(function(response) { return response.data; })`. -/
def fromUrl (env : Env) (url params : JSVal) : JSVal × List Event :=
  let u := resolvedUrl env url params
  let ev := resolveEvents url params
  if looseEqNull u then
    (JSVal.null, ev)
  else
    (JSVal.promise (getProp (env.httpResponse u) "data"),
     ev ++ [Event.httpGet u (JSVal.object [("cache", env.templateCache)])])

/-- `fromProvider(provider, params, locals)`:
`$injector.invoke(provider, null, locals || { params: params })`. -/
def fromProvider (env : Env) (provider params locals : JSVal) : JSVal × List Event :=
  let l := if truthy locals then locals else JSVal.object [("params", params)]
  (env.invoke provider JSVal.null l, [Event.injectorInvoke provider JSVal.null l])

/-- `fromService(serviceName, params, locals)`:
`$injector.invoke([serviceName, function(service) { return service.getTemplate(params, locals); }])`.
The annotated-array invocation looks up the named service and calls the
closure with it; note that `locals` is passed to `getTemplate` exactly as
received, with no defaulting. -/
def fromService (env : Env) (serviceName params locals : JSVal) : JSVal × List Event :=
  let service := env.serviceOf serviceName
  (env.getTemplate service params locals,
   [Event.serviceLookup serviceName, Event.getTemplateCall service params locals])

/-- `fromConfig(config, params, locals)`: the four-way dispatch on which of
`template`, `templateUrl`, `templateProvider`, `templateService` is defined,
in that order, falling through to `null`. -/
def fromConfig (env : Env) (config params locals : JSVal) : JSVal × List Event :=
  if isDefined (getProp config "template") then
    fromString env (getProp config "template") params
  else if isDefined (getProp config "templateUrl") then
    fromUrl env (getProp config "templateUrl") params
  else if isDefined (getProp config "templateProvider") then
    fromProvider env (getProp config "templateProvider") params locals
  else if isDefined (getProp config "templateService") then
    fromService env (getProp config "templateService") params locals
  else
    (JSVal.null, [])

/-- Running a sequence of independent `fromConfig` calls against the same
injected services (the factory keeps no state between calls). -/
def runCalls (env : Env) (calls : List (JSVal × JSVal × JSVal)) :
    List (JSVal × List Event) :=
  calls.map (fun c => fromConfig env c.1 c.2.1 c.2.2)

end TemplateFactory

open TemplateFactory

/-- A concrete behaviour of the injected services, used to instantiate the
theorems below on closed inputs.  Function `0` returns `null`, function `1`
returns `undefined`, every other function returns the string `"tpl"`; the
injector invocation and `getTemplate` both return the locals they received. -/
def env0 : Env where
  apply := fun fid _ =>
    if fid = 0 then JSVal.null else if fid = 1 then JSVal.undef else JSVal.string "tpl"
  httpResponse := fun _ =>
    JSVal.object [("data", JSVal.string "body"), ("status", JSVal.number 200)]
  templateCache := JSVal.object [("id", JSVal.string "templates")]
  invoke := fun _ _ locals => locals
  serviceOf := fun _ => JSVal.object [("kind", JSVal.string "service")]
  getTemplate := fun _ _ locals => locals

/-- A config defining both `template` and `templateUrl`. -/
def cfgBoth : JSVal :=
  JSVal.object [("template", JSVal.string "A"), ("templateUrl", JSVal.string "B")]

/-- A config whose `template` is present but `null`, with `templateUrl`,
`templateProvider` and `templateService` all defined as well. -/
def cfgNullTemplate : JSVal :=
  JSVal.object [("template", JSVal.null), ("templateUrl", JSVal.string "u"),
                ("templateProvider", JSVal.func 2), ("templateService", JSVal.string "svc")]

/-- Like `cfgNullTemplate` but with the empty string as the `template`. -/
def cfgEmptyStringTemplate : JSVal :=
  JSVal.object [("template", JSVal.string ""), ("templateUrl", JSVal.string "u")]


/-- Claim C1: `fromConfig` selects the resolution strategy by the fixed
priority order `template` > `templateUrl` > `templateProvider` >
`templateService`: the first of the four fields that is defined determines
the strategy, regardless of which later fields are also defined. -/
theorem fromConfig_priority (env : Env) (config params locals : JSVal) :
    (isDefined (getProp config "template") = true →
      fromConfig env config params locals
        = fromString env (getProp config "template") params) ∧
    (isDefined (getProp config "template") = false →
      isDefined (getProp config "templateUrl") = true →
      fromConfig env config params locals
        = fromUrl env (getProp config "templateUrl") params) ∧
    (isDefined (getProp config "template") = false →
      isDefined (getProp config "templateUrl") = false →
      isDefined (getProp config "templateProvider") = true →
      fromConfig env config params locals
        = fromProvider env (getProp config "templateProvider") params locals) ∧
    (isDefined (getProp config "template") = false →
      isDefined (getProp config "templateUrl") = false →
      isDefined (getProp config "templateProvider") = false →
      isDefined (getProp config "templateService") = true →
      fromConfig env config params locals
        = fromService env (getProp config "templateService") params locals) := by
  refine ⟨?_, ?_, ?_, ?_⟩ <;> intros <;> simp [fromConfig, *]

/-- Instantiation of `fromConfig_priority`: with both fields defined,
`template` wins. -/
theorem fromConfig_priority_witness :
    fromConfig env0 cfgBoth (JSVal.string "p") JSVal.undef
      = fromString env0 (getProp cfgBoth "template") (JSVal.string "p") :=
  (fromConfig_priority env0 cfgBoth (JSVal.string "p") JSVal.undef).1 rfl

/-- Claim C3: `fromString` returns a literal string unchanged, returns the
result of calling a function template on `params`, and through `fromConfig`
a config defining only a string `template` resolves to that string. -/
theorem fromString_spec (env : Env) (params : JSVal) :
    (∀ s : String, fromString env (JSVal.string s) params = (JSVal.string s, [])) ∧
    (∀ fid : Nat, fromString env (JSVal.func fid) params
        = (env.apply fid params, [Event.callTemplateFn fid params])) ∧
    (∀ (s : String) (locals : JSVal),
      fromConfig env (JSVal.object [("template", JSVal.string s)]) params locals
        = (JSVal.string s, [])) :=
  ⟨fun _ => rfl, fun _ => rfl, fun _ _ => rfl⟩

/-- Claim C4: `fromUrl` first replaces a function url by its value on
`params`; whenever the resolved url is (loosely) null it returns `null` and
its trace contains no `$http.get`. -/
theorem fromUrl_null (env : Env) (url params : JSVal)
    (h : looseEqNull (resolvedUrl env url params) = true) :
    fromUrl env url params = (JSVal.null, resolveEvents url params) ∧
    (∀ fid, url = JSVal.func fid → resolvedUrl env url params = env.apply fid params) ∧
    ∀ e ∈ (fromUrl env url params).2, e.isHttpGet = false := by
  refine ⟨by simp [fromUrl, h], fun fid hf => by simp [resolvedUrl, hf], ?_⟩
  simp only [fromUrl, h, if_pos]
  cases url <;> simp [resolveEvents, Event.isHttpGet]

/-- Instantiation of `fromUrl_null`: a url function returning `null` yields
`null` with no fetch event. -/
theorem fromUrl_null_witness :
    fromUrl env0 (JSVal.func 0) (JSVal.string "p")
      = (JSVal.null, resolveEvents (JSVal.func 0) (JSVal.string "p")) :=
  (fromUrl_null env0 (JSVal.func 0) (JSVal.string "p") rfl).1

/-- Claim C5: for a non-null resolved url, `fromUrl` performs exactly one
`$http.get` of that url with `{ cache: $templateCache }` as options, and
returns a deferred resolving to the response's `data` field. -/
theorem fromUrl_fetch (env : Env) (url params : JSVal)
    (h : looseEqNull (resolvedUrl env url params) = false) :
    (fromUrl env url params).1
      = JSVal.promise (getProp (env.httpResponse (resolvedUrl env url params)) "data") ∧
    (fromUrl env url params).2.filter Event.isHttpGet
      = [Event.httpGet (resolvedUrl env url params)
          (JSVal.object [("cache", env.templateCache)])] := by
  constructor
  · simp [fromUrl, h]
  · simp only [fromUrl, h, Bool.false_eq_true, if_neg, List.filter_append]
    cases url <;> simp [resolveEvents, Event.isHttpGet]

/-- Instantiation of `fromUrl_fetch` on a string url. -/
theorem fromUrl_fetch_witness :
    (fromUrl env0 (JSVal.string "u") (JSVal.string "p")).1
      = JSVal.promise (JSVal.string "body") ∧
    (fromUrl env0 (JSVal.string "u") (JSVal.string "p")).2.filter Event.isHttpGet
      = [Event.httpGet (JSVal.string "u")
          (JSVal.object [("cache", JSVal.object [("id", JSVal.string "templates")])])] :=
  fromUrl_fetch env0 (JSVal.string "u") (JSVal.string "p") rfl

/-- Claim C6: `fromProvider` invokes the provider through the injector with
the given locals when locals is a provided key-value object, and with
`{ params: params }` when locals is absent, returning the invocation's
result unchanged. -/
theorem fromProvider_locals (env : Env) (provider params locals : JSVal) :
    (locals = JSVal.undef →
      fromProvider env provider params locals
        = (env.invoke provider JSVal.null (JSVal.object [("params", params)]),
           [Event.injectorInvoke provider JSVal.null
             (JSVal.object [("params", params)])])) ∧
    (∀ fields, locals = JSVal.object fields →
      fromProvider env provider params locals
        = (env.invoke provider JSVal.null locals,
           [Event.injectorInvoke provider JSVal.null locals])) := by
  constructor
  · intro h; subst h; rfl
  · intro fields h; subst h; rfl

/-- Instantiation of `fromProvider_locals` for absent and provided locals. -/
theorem fromProvider_locals_witness :
    fromProvider env0 (JSVal.func 2) (JSVal.string "p") JSVal.undef
      = (JSVal.object [("params", JSVal.string "p")],
         [Event.injectorInvoke (JSVal.func 2) JSVal.null
           (JSVal.object [("params", JSVal.string "p")])]) ∧
    fromProvider env0 (JSVal.func 2) (JSVal.string "p")
        (JSVal.object [("k", JSVal.number 1)])
      = (JSVal.object [("k", JSVal.number 1)],
         [Event.injectorInvoke (JSVal.func 2) JSVal.null
           (JSVal.object [("k", JSVal.number 1)])]) :=
  ⟨(fromProvider_locals env0 (JSVal.func 2) (JSVal.string "p") JSVal.undef).1 rfl,
   (fromProvider_locals env0 (JSVal.func 2) (JSVal.string "p")
     (JSVal.object [("k", JSVal.number 1)])).2 [("k", JSVal.number 1)] rfl⟩

/-- Claim C7: when none of the four template fields is defined, `fromConfig`
returns `null` with an empty trace: no strategy, fetch or injection runs. -/
theorem fromConfig_none (env : Env) (config params locals : JSVal)
    (ht : isDefined (getProp config "template") = false)
    (hu : isDefined (getProp config "templateUrl") = false)
    (hp : isDefined (getProp config "templateProvider") = false)
    (hs : isDefined (getProp config "templateService") = false) :
    fromConfig env config params locals = (JSVal.null, []) := by
  simp [fromConfig, ht, hu, hp, hs]

/-- Instantiation of `fromConfig_none` on the empty config. -/
theorem fromConfig_none_witness :
    fromConfig env0 (JSVal.object []) (JSVal.string "p") JSVal.undef
      = (JSVal.null, []) :=
  fromConfig_none env0 (JSVal.object []) (JSVal.string "p") JSVal.undef rfl rfl rfl rfl

/-- Claim C8: `fromConfig` is stateless and deterministic: in any sequence of
calls against the same framework services, each call's result is exactly
`fromConfig` of its own arguments (unaffected by earlier or later calls), and
two invocations with the same arguments have the same result. -/
theorem fromConfig_stateless (env : Env) (config params locals : JSVal)
    (pre post : List (JSVal × JSVal × JSVal)) :
    runCalls env (pre ++ (config, params, locals) :: post)
      = runCalls env pre ++ fromConfig env config params locals :: runCalls env post ∧
    ∀ r₁ r₂, fromConfig env config params locals = r₁ →
      fromConfig env config params locals = r₂ → r₁ = r₂ := by
  constructor
  · simp [runCalls]
  · intro r₁ r₂ h₁ h₂; rw [← h₁, ← h₂]

/-- Instantiation of `fromConfig_stateless`: the same call repeated twice in
a sequence returns the same result both times. -/
theorem fromConfig_stateless_witness :
    runCalls env0 ([] ++ (cfgBoth, JSVal.string "p", JSVal.undef)
        :: [(cfgBoth, JSVal.string "p", JSVal.undef)])
      = runCalls env0 []
        ++ fromConfig env0 cfgBoth (JSVal.string "p") JSVal.undef
        :: runCalls env0 [(cfgBoth, JSVal.string "p", JSVal.undef)] ∧
    (JSVal.string "A", ([] : List Event)) = (JSVal.string "A", ([] : List Event)) :=
  ⟨(fromConfig_stateless env0 cfgBoth (JSVal.string "p") JSVal.undef []
      [(cfgBoth, JSVal.string "p", JSVal.undef)]).1,
   (fromConfig_stateless env0 cfgBoth (JSVal.string "p") JSVal.undef []
      [(cfgBoth, JSVal.string "p", JSVal.undef)]).2
     (JSVal.string "A", []) (JSVal.string "A", []) rfl rfl⟩

/-- Claim C9: branch selection tests definedness, not truthiness: a config
whose `template` is present but `null` (or the empty string) still takes the
template strategy, even when the other three fields are defined, so
`fromConfig` returns `null` (respectively `""`) with no fetch or injection. -/
theorem fromConfig_definedness (env : Env) (config params locals : JSVal) :
    (getProp config "template" = JSVal.null →
      fromConfig env config params locals = (JSVal.null, [])) ∧
    (getProp config "template" = JSVal.string "" →
      fromConfig env config params locals = (JSVal.string "", [])) := by
  constructor
  · intro h; simp [fromConfig, h, isDefined, fromString]
  · intro h; simp [fromConfig, h, isDefined, fromString]

/-- Instantiation of `fromConfig_definedness` on configs that also define
`templateUrl`, `templateProvider` and `templateService`. -/
theorem fromConfig_definedness_witness :
    fromConfig env0 cfgNullTemplate (JSVal.string "p") JSVal.undef
      = (JSVal.null, []) ∧
    fromConfig env0 cfgEmptyStringTemplate (JSVal.string "p") JSVal.undef
      = (JSVal.string "", []) :=
  ⟨(fromConfig_definedness env0 cfgNullTemplate (JSVal.string "p") JSVal.undef).1 rfl,
   (fromConfig_definedness env0 cfgEmptyStringTemplate (JSVal.string "p")
      JSVal.undef).2 rfl⟩

/-- Claim C10: the null check in `fromUrl` is loose equality, so a url
function returning `undefined` is treated exactly like one returning `null`:
the result is `null` and no fetch happens. -/
theorem fromUrl_undef (env : Env) (fid : Nat) (params : JSVal)
    (h : env.apply fid params = JSVal.undef ∨ env.apply fid params = JSVal.null) :
    fromUrl env (JSVal.func fid) params
      = (JSVal.null, [Event.callTemplateFn fid params]) ∧
    ∀ e ∈ (fromUrl env (JSVal.func fid) params).2, e.isHttpGet = false := by
  have hl : looseEqNull (resolvedUrl env (JSVal.func fid) params) = true := by
    rcases h with h | h <;> simp [resolvedUrl, h, looseEqNull]
  constructor
  · simp [fromUrl, hl, resolveEvents]
  · simp [fromUrl, hl, resolveEvents, Event.isHttpGet]

/-- Instantiation of `fromUrl_undef`: function `1` of `env0` returns
`undefined`, and `fromUrl` returns `null` without fetching. -/
theorem fromUrl_undef_witness :
    fromUrl env0 (JSVal.func 1) (JSVal.string "p")
      = (JSVal.null, [Event.callTemplateFn 1 (JSVal.string "p")]) :=
  (fromUrl_undef env0 1 (JSVal.string "p") (Or.inl rfl)).1

/-- Claim C2 (code behaviour at the failing input): `fromService` passes
`locals` to `getTemplate` exactly as received, with no defaulting.  With
absent locals, `getTemplate` is called with `undefined` rather than the
documented default `{ params: params }` — under `env0`, whose `getTemplate`
returns the locals it received, the result is `undefined`, which differs
from `{ params: "p" }`. -/
theorem fromService_no_default :
    fromService env0 (JSVal.string "svc") (JSVal.string "p") JSVal.undef
      = (JSVal.undef,
         [Event.serviceLookup (JSVal.string "svc"),
          Event.getTemplateCall (JSVal.object [("kind", JSVal.string "service")])
            (JSVal.string "p") JSVal.undef]) ∧
    (JSVal.undef : JSVal) ≠ JSVal.object [("params", JSVal.string "p")] :=
  ⟨rfl, fun h => JSVal.noConfusion h⟩
